import Mathlib

/-!
A shallow embedding of `src/bot.py` from the Discord-Bot-Framework repository.

The module defines a single class `Bot` (a subclass of the framework's bot
client).  We embed its state as a structure, its side effects (console logging,
presence changes, waiting on the gateway, and the per-guild persistence calls
`write_settings` / `write_data`) as an explicit event trace, uncaught Python
exceptions as an `Option PyError` component of each operation's result, parsed
JSON values as an inductive type, the filesystem as a function from paths to
optional parsed file contents, and the random choice made by `random.choice`
as an externally supplied index.  The abstract method `load_guilds` (declared
but deliberately unimplemented in this file of the repository) is modelled as
an environment-supplied update of the guild registry.
-/

namespace BotSystem

/-- A parsed JSON value, restricted to the shapes the configuration file uses:
strings, integers and arrays. -/
inductive JVal where
  | str (s : String)
  | num (n : Int)
  | arr (xs : List JVal)

/-- A parsed JSON object (Python `dict`), as an association list in insertion
order with unique keys. -/
abbrev Config := List (String × JVal)

/-- Observable side effects of the bot, in program order. -/
inductive Event where
  | log (origin msg : String)
  | waitUntilReady
  | loadGuildsCall
  | changePresence (name : JVal)
  | writeSettings (g : Nat)
  | writeData (g : Nat)

/-- Uncaught Python exceptions that the embedded code can raise. -/
inductive PyError where
  | keyError (k : String)
  | valueError (s : String)
  | typeError (s : String)
  | indexError (s : String)
deriving DecidableEq

/-- Counts `loadGuildsCall` events, i.e. executions of the initialization
body of `prepare_data`, in a trace. -/
def countInit : List Event → Nat
  | [] => 0
  | Event.loadGuildsCall :: rest => countInit rest + 1
  | _ :: rest => countInit rest

/-- Counts `writeSettings` calls on the guild object `g` in a trace. -/
def countWS (g : Nat) : List Event → Nat
  | [] => 0
  | Event.writeSettings g' :: rest => (if g' = g then 1 else 0) + countWS g rest
  | _ :: rest => countWS g rest

/-- Counts `writeData` calls on the guild object `g` in a trace. -/
def countWD (g : Nat) : List Event → Nat
  | [] => 0
  | Event.writeData g' :: rest => (if g' = g then 1 else 0) + countWD g rest
  | _ :: rest => countWD g rest

/-- The mutable attributes of the `Bot` class (`_name`, `_version`, `_token`,
`_admins_id`, `_users`, `_custom_guilds`, `_activity_str`, `_custom_ready`).
Guild objects are external collaborators identified only by their object
identity, modelled as a `Nat`. -/
structure Bot where
  name : String
  version : String
  token : JVal
  admins_id : List Int
  users : List (String × Nat)
  custom_guilds : List (String × Nat)
  activity_str : JVal
  custom_ready : Bool

/-- Python dictionary subscript `d[k]`: the value, or a `KeyError`. -/
def dictGet (d : Config) (k : String) : Except PyError JVal :=
  match d.lookup k with
  | some v => Except.ok v
  | none => Except.error (PyError.keyError k)

/-- Reads a nonempty run of decimal digits into an accumulator. -/
def parseNatAux : List Char → Nat → Option Nat
  | [], acc => some acc
  | c :: rest, acc =>
      if c.isDigit then parseNatAux rest (acc * 10 + (c.toNat - 48)) else none

/-- The integer-literal grammar accepted by Python `int(s)`: an optional sign
followed by decimal digits (surrounding whitespace and digit-group
underscores, which Python also accepts, are a modelling simplification left
out; no embedded claim exercises them). -/
def pyParseInt (s : String) : Option Int :=
  match s.toList with
  | [] => none
  | '-' :: rest => if rest = [] then none else (parseNatAux rest 0).map (fun n => -(n : Int))
  | '+' :: rest => if rest = [] then none else (parseNatAux rest 0).map (fun n => (n : Int))
  | cs => (parseNatAux cs 0).map (fun n => (n : Int))

/-- Python `int(x)` on a parsed JSON value: integers pass through, strings are
parsed (raising `ValueError` when not an integer literal), arrays raise
`TypeError`. -/
def pyInt : JVal → Except PyError Int
  | JVal.num n => Except.ok n
  | JVal.str s =>
      match pyParseInt s with
      | some n => Except.ok n
      | none => Except.error (PyError.valueError s)
  | JVal.arr _ => Except.error (PyError.typeError "int() argument")

/-- Python `list(map(int, v))`: converts each element of an iterable, the
first failing conversion raising; non-iterables raise `TypeError`. -/
def pyMapInt : JVal → Except PyError (List Int)
  | JVal.arr xs => xs.mapM pyInt
  | JVal.str s => (s.toList.map (fun c => JVal.str (String.singleton c))).mapM pyInt
  | JVal.num _ => Except.error (PyError.typeError "argument of type int is not iterable")

/-- Python `random.choice(v)`, with the randomness supplied as the index `k`
(taken modulo the sequence length): an element of a nonempty array or string,
`IndexError` on an empty sequence, `TypeError` on a non-sequence. -/
def choice (v : JVal) (k : Nat) : Except PyError JVal :=
  match v with
  | JVal.arr xs =>
      if h : 0 < xs.length then
        Except.ok (xs.get ⟨k % xs.length, Nat.mod_lt k h⟩)
      else
        Except.error (PyError.indexError "Cannot choose from an empty sequence")
  | JVal.str s =>
      let cs := s.toList
      if h : 0 < cs.length then
        Except.ok (JVal.str (String.singleton (cs.get ⟨k % cs.length, Nat.mod_lt k h⟩)))
      else
        Except.error (PyError.indexError "Cannot choose from an empty sequence")
  | JVal.num _ => Except.error (PyError.typeError "object is not subscriptable")

/-- The log message emitted when the settings file does not exist
(lines 183-185 of `bot.py`). -/
def loadFailMsg : String :=
  "The loading operation has failed. The file \"internal_settings.json\" should be in the system directory"

/-- `Bot.load_internal_settings` (lines 169-187).  The filesystem is modelled
as a map from paths to the parsed JSON contents of existing files (the
`json.loads` call is assumed to succeed on existing files; malformed JSON is
outside the scope of the embedded claims).  Returns the parsed mapping or
`none`, together with the log events emitted. -/
def load_internal_settings (fs : String → Option Config) (path : String) :
    Option Config × List Event :=
  if path = "" then
    (none, [])
  else
    match fs path with
    | some cfg => (some cfg, [])
    | none => (none, [Event.log "Bot" loadFailMsg])

/-- `Bot.set_internal_settings` (lines 189-203).  `k` supplies the randomness
consumed by `random.choice`.  Assignments to the attributes happen line by
line, so an exception raised partway leaves the earlier assignments in place;
the uncaught exception is returned in the third component. -/
def set_internal_settings (fs : String → Option Config) (k : Nat) (path : String)
    (b : Bot) : Bot × List Event × Option PyError :=
  let ev0 := [Event.log "Bot" "Loading internal definitions"]
  let r := load_internal_settings fs path
  match r.1 with
  | some cfg =>
      match dictGet cfg "ADM_ID" with
      | Except.error e => (b, ev0 ++ r.2, some e)
      | Except.ok v =>
          match pyMapInt v with
          | Except.error e => (b, ev0 ++ r.2, some e)
          | Except.ok ints =>
              let b1 := { b with admins_id := ints }
              match dictGet cfg "TOKEN" with
              | Except.error e => (b1, ev0 ++ r.2, some e)
              | Except.ok t =>
                  let b2 := { b1 with token := t }
                  match dictGet cfg "Activities" with
                  | Except.error e => (b2, ev0 ++ r.2, some e)
                  | Except.ok av =>
                      match choice av k with
                      | Except.error e => (b2, ev0 ++ r.2, some e)
                      | Except.ok a =>
                          ({ b2 with activity_str := a }, ev0 ++ r.2, none)
  | none => (b, ev0 ++ r.2 ++ [Event.log "Bot" "Failed set internal definitions"], none)

/-- `Bot.set_activity` (lines 158-166).  The default Python argument is the
empty string; call sites with no argument pass `\x22\x22` here.  Pure apart
from the presence change, so only the event trace is returned. -/
def set_activity (b : Bot) (activity : String) : List Event :=
  if activity ≠ "" then
    [Event.changePresence (JVal.str activity)]
  else
    [Event.changePresence b.activity_str]

/-- The framework-supplied context available during `prepare_data`: the result
of the abstract `load_guilds` method and the bot's self-user (`self.user`,
a name and an id when available).

Modelled from the spec: `load_guilds` is declared `@abstractmethod` in
`bot.py` and implemented outside this repository; the spec states that it
loads the guild registry ("Entries are added during one-time initialization
(`load_guilds`, externally defined)"), so it is modelled as an arbitrary
externally supplied update of the registry that may raise. -/
structure Env where
  loadGuildsImpl : List (String × Nat) → Except PyError (List (String × Nat))
  user : Option (String × Int)

/-- `Bot.prepare_data` (lines 134-156).  The readiness flag is set before any
of the initialization body runs; a second entry returns immediately with no
effects.  An exception raised by `load_guilds` propagates (third component)
with the flag already set. -/
def prepare_data (env : Env) (b : Bot) : Bot × List Event × Option PyError :=
  if b.custom_ready = false then
    let b1 := { b with custom_ready := true }
    let ev0 := [Event.log "Bot" "Waiting...", Event.waitUntilReady]
    match env.loadGuildsImpl b1.custom_guilds with
    | Except.error e => (b1, ev0 ++ [Event.loadGuildsCall], some e)
    | Except.ok reg =>
        let b2 := { b1 with custom_guilds := reg }
        match env.user with
        | some u =>
            (b2,
             ev0 ++ [Event.loadGuildsCall,
                     Event.log "Bot" (b2.name ++ " " ++ b2.version ++ " ready to operate"),
                     Event.log "Bot" ("Logged as " ++ u.1 ++ ", with the id: " ++ toString u.2)]
                 ++ set_activity b2 "",
             none)
        | none =>
            (b2,
             ev0 ++ [Event.loadGuildsCall, Event.log "Bot" "Failed to get the user data"]
                 ++ set_activity b2 "ERROR",
             none)
  else
    (b, [], none)

/-- The `on_ready` listener (lines 88-95): logs "Ready" and runs
`prepare_data`. -/
def on_ready (env : Env) (b : Bot) : Bot × List Event × Option PyError :=
  let r := prepare_data env b
  (r.1, Event.log "Bot" "Ready" :: r.2.1, r.2.2)

/-- A sequence of `n` "ready" deliveries from the framework, each handled by
`on_ready`, accumulating the event trace. -/
def on_ready_iter (env : Env) (b : Bot) : Nat → Bot × List Event
  | 0 => (b, [])
  | Nat.succ n =>
      let r := on_ready env b
      let rest := on_ready_iter env r.1 n
      (rest.1, r.2.1 ++ rest.2)

/-- `Bot.save_guild` (lines 214-220).  Two separate dictionary subscripts, one
per persistence call, exactly as in the source; a `KeyError` on the first
subscript aborts before any persistence call. -/
def save_guild (b : Bot) (guild_id : Int) : List Event × Option PyError :=
  match b.custom_guilds.lookup (toString guild_id) with
  | none => ([], some (PyError.keyError (toString guild_id)))
  | some g =>
      match b.custom_guilds.lookup (toString guild_id) with
      | none => ([Event.writeSettings g], some (PyError.keyError (toString guild_id)))
      | some g2 => ([Event.writeSettings g, Event.writeData g2], none)

/-- The loop body of `save_all_guilds`: for each registry entry in order,
call `write_settings` then `write_data` on its guild object. -/
def writeGuildEvents : List (String × Nat) → List Event
  | [] => []
  | (_, g) :: rest => Event.writeSettings g :: Event.writeData g :: writeGuildEvents rest

/-- `Bot.save_all_guilds` (lines 222-229): iterates the registry values in
insertion order. -/
def save_all_guilds (b : Bot) : List Event :=
  writeGuildEvents b.custom_guilds

/-- The autosave loop body `Bot.save` (lines 78-85), scheduled every 600
seconds by the framework: logs and saves all guilds. -/
def save (b : Bot) : List Event :=
  Event.log "Bot" "Saving all guilds automatically" :: save_all_guilds b

/-- `Bot.is_admin` (lines 231-236): membership of the author id in the admin
id list. -/
def is_admin (b : Bot) (author_id : Int) : Bool :=
  b.admins_id.contains author_id

/-- `Bot.get_custom_guild` (lines 252-257): dictionary subscript on the
registry, raising `KeyError` when absent. -/
def get_custom_guild (b : Bot) (guild_id : Int) : Except PyError Nat :=
  match b.custom_guilds.lookup (toString guild_id) with
  | some g => Except.ok g
  | none => Except.error (PyError.keyError (toString guild_id))

/-- The attribute initialization of `Bot.__init__` (lines 43-66) followed by
the `set_internal_settings` call it performs.  The RNG seeding is absorbed
into the choice index `k`. -/
def mkBot (fs : String → Option Config) (k : Nat) (name settings_file version : String) :
    Bot × List Event × Option PyError :=
  let b0 : Bot :=
    { name := name, version := version, custom_guilds := [], users := [],
      admins_id := [], token := JVal.str "", activity_str := JVal.str "",
      custom_ready := false }
  let ev0 := [Event.log "Bot" ("Initializing " ++ name ++ " " ++ version),
              Event.log "Bot" "Initializing the RNG"]
  let r := set_internal_settings fs k settings_file b0
  (r.1, ev0 ++ r.2.1, r.2.2)

/-! Concrete bots, configurations and environments used to evaluate the
theorems on explicit inputs. -/

/-- A two-entry guild registry: guild id 5 maps to object 7, id 8 to
object 9. -/
def sampleGuilds : List (String × Nat) := [("5", 7), ("8", 9)]

/-- A bot with a populated registry and admin list. -/
def bReg : Bot :=
  { name := "bot", version := "1.0", token := JVal.str "", admins_id := [10, 20],
    users := [], custom_guilds := sampleGuilds, activity_str := JVal.str "act",
    custom_ready := false }

/-- A bot with an empty registry and empty admin list. -/
def bEmpty : Bot :=
  { name := "bot", version := "1.0", token := JVal.str "", admins_id := [],
    users := [], custom_guilds := [], activity_str := JVal.str "act",
    custom_ready := false }

/-- A complete configuration file with all three required keys. -/
def cfgFull : Config :=
  [("ADM_ID", JVal.arr [JVal.str "10", JVal.num 20]),
   ("TOKEN", JVal.str "tok"),
   ("Activities", JVal.arr [JVal.str "a", JVal.str "b"])]

/-- A configuration missing `ADM_ID`. -/
def cfgNoAdm : Config :=
  [("TOKEN", JVal.str "tok"), ("Activities", JVal.arr [JVal.str "a"])]

/-- A configuration missing `TOKEN`. -/
def cfgNoTok : Config :=
  [("ADM_ID", JVal.arr [JVal.num 1]), ("Activities", JVal.arr [JVal.str "a"])]

/-- A configuration missing `Activities`. -/
def cfgNoAct : Config :=
  [("ADM_ID", JVal.arr [JVal.num 1]), ("TOKEN", JVal.str "tok")]

/-- A filesystem holding the given parsed configuration at the path
`settings.json` and nothing else. -/
def fsOf (cfg : Config) : String → Option Config :=
  fun p => if p = "settings.json" then some cfg else none

/-- An environment whose `load_guilds` succeeds and whose self-user is
available. -/
def envOkUser : Env :=
  { loadGuildsImpl := fun _ => Except.ok sampleGuilds, user := some ("me", 42) }

/-- An environment whose `load_guilds` succeeds but whose self-user is
unavailable. -/
def envOkNoUser : Env :=
  { loadGuildsImpl := fun _ => Except.ok sampleGuilds, user := none }

/-- An environment whose `load_guilds` raises. -/
def envErr : Env :=
  { loadGuildsImpl := fun _ => Except.error (PyError.keyError "guilds"),
    user := some ("me", 42) }

/-! Helper lemmas. -/

theorem countInit_append (l1 l2 : List Event) :
    countInit (l1 ++ l2) = countInit l1 + countInit l2 := by
  induction l1 with
  | nil => simp [countInit]
  | cons e rest ih =>
      cases e <;> simp [countInit, ih]
      omega

theorem countWS_writeGuildEvents (g : Nat) (l : List (String × Nat)) :
    countWS g (writeGuildEvents l) = (l.map Prod.snd).count g := by
  induction l with
  | nil => rfl
  | cons p rest ih =>
      simp [writeGuildEvents, countWS, ih, List.count_cons]
      omega

theorem countWD_writeGuildEvents (g : Nat) (l : List (String × Nat)) :
    countWD g (writeGuildEvents l) = (l.map Prod.snd).count g := by
  induction l with
  | nil => rfl
  | cons p rest ih =>
      simp [writeGuildEvents, countWD, ih, List.count_cons]
      omega

theorem writeGuildEvents_flatMap (l : List (String × Nat)) :
    writeGuildEvents l
      = l.flatMap (fun p => [Event.writeSettings p.2, Event.writeData p.2]) := by
  induction l with
  | nil => rfl
  | cons p rest ih => simp [writeGuildEvents, ih]

theorem prepare_data_ready (env : Env) (b : Bot) (h : b.custom_ready = true) :
    prepare_data env b = (b, [], none) := by
  simp [prepare_data, h]

theorem prepare_data_fresh (env : Env) (b : Bot) (h : b.custom_ready = false) :
    (prepare_data env b).1.custom_ready = true
    ∧ countInit (prepare_data env b).2.1 = 1 := by
  cases hl : env.loadGuildsImpl b.custom_guilds with
  | error e => simp [prepare_data, h, hl, countInit]
  | ok reg =>
      cases hu : env.user with
      | some u => simp [prepare_data, h, hl, hu, countInit, set_activity]
      | none => simp [prepare_data, h, hl, hu, countInit, set_activity]

theorem on_ready_iter_ready (env : Env) (b : Bot) (h : b.custom_ready = true) (n : Nat) :
    (on_ready_iter env b n).1 = b ∧ countInit (on_ready_iter env b n).2 = 0 := by
  induction n with
  | zero => simp [on_ready_iter, countInit]
  | succ n ih =>
      simp [on_ready_iter, on_ready, prepare_data_ready env b h, countInit,
            countInit_append, ih]

theorem set_internal_settings_flag (fs : String → Option Config) (k : Nat)
    (path : String) (b : Bot) :
    (set_internal_settings fs k path b).1.custom_ready = b.custom_ready := by
  simp only [set_internal_settings]
  repeat' split
  all_goals rfl

/-! Claim theorems. -/

/-- Claim C1: across any sequence of ready deliveries starting from an unset
readiness flag, the initialization body of `prepare_data` runs exactly once;
the flag ends (and stays) true, every delivery after the first returns
without performing initialization, and the only other state-updating
operation, `set_internal_settings`, never changes the flag. -/
theorem C1_ready_once (env : Env) (fs : String → Option Config) (k : Nat)
    (path : String) (b : Bot) (n : Nat) (h : b.custom_ready = false) :
    countInit (on_ready_iter env b (n + 1)).2 = 1
  ∧ (on_ready_iter env b (n + 1)).1.custom_ready = true
  ∧ (∀ b', b'.custom_ready = true → prepare_data env b' = (b', [], none))
  ∧ (∀ b', (set_internal_settings fs k path b').1.custom_ready = b'.custom_ready) := by
  have hfresh := prepare_data_fresh env b h
  have hiter := on_ready_iter_ready env (prepare_data env b).1 hfresh.1 n
  refine ⟨?_, ?_, fun b' h' => prepare_data_ready env b' h',
          fun b' => set_internal_settings_flag fs k path b'⟩
  · simp [on_ready_iter, on_ready, countInit_append, countInit, hiter.2, hfresh.2]
  · simp [on_ready_iter, on_ready, hiter.1, hfresh.1]

/-- Claim C1, evaluated: three ready deliveries on a fresh bot run the
initialization exactly once and leave the flag true. -/
theorem C1_ready_once_witness :
    countInit (on_ready_iter envOkUser bReg (2 + 1)).2 = 1
    ∧ (on_ready_iter envOkUser bReg (2 + 1)).1.custom_ready = true :=
  ⟨(C1_ready_once envOkUser (fsOf cfgFull) 0 "settings.json" bReg 2 rfl).1,
   (C1_ready_once envOkUser (fsOf cfgFull) 0 "settings.json" bReg 2 rfl).2.1⟩

/-- Claim C9: `prepare_data` sets the readiness flag before running any of
the initialization body, so when `load_guilds` raises, the error propagates
with the flag already true, and the next ready delivery is a no-op — the
initialization is attempted at most once, not guaranteed to complete. -/
theorem C9_flag_before_body (env : Env) (b : Bot) (e : PyError)
    (h : b.custom_ready = false)
    (herr : env.loadGuildsImpl b.custom_guilds = Except.error e) :
    (prepare_data env b).2.2 = some e
  ∧ (prepare_data env b).1.custom_ready = true
  ∧ prepare_data env (prepare_data env b).1 = ((prepare_data env b).1, [], none)
  ∧ countInit (prepare_data env (prepare_data env b).1).2.1 = 0 := by
  have h1 : (prepare_data env b).1.custom_ready = true := by
    simp [prepare_data, h, herr]
  refine ⟨?_, h1, prepare_data_ready env _ h1, ?_⟩
  · simp [prepare_data, h, herr]
  · simp [prepare_data_ready env _ h1, countInit]

/-- Claim C9, evaluated: with a raising `load_guilds`, the error propagates,
the flag is true, and the second delivery does nothing. -/
theorem C9_flag_before_body_witness :
    (prepare_data envErr bReg).2.2 = some (PyError.keyError "guilds")
    ∧ (prepare_data envErr bReg).1.custom_ready = true
    ∧ prepare_data envErr (prepare_data envErr bReg).1
        = ((prepare_data envErr bReg).1, [], none)
    ∧ countInit (prepare_data envErr (prepare_data envErr bReg).1).2.1 = 0 :=
  C9_flag_before_body envErr bReg (PyError.keyError "guilds") rfl rfl

/-- Claim C8: during first-time initialization with `load_guilds` succeeding,
an unavailable self-user does not fail the process — the presence is set to
the literal string ERROR — while an available self-user makes the presence
the stored activity string; `set_activity` with an empty argument uses the
stored activity string and with a non-empty argument uses that argument. -/
theorem C8_error_presence (env : Env) (b : Bot) (reg : List (String × Nat)) (s : String) :
    set_activity b "" = [Event.changePresence b.activity_str]
  ∧ (s ≠ "" → set_activity b s = [Event.changePresence (JVal.str s)])
  ∧ (b.custom_ready = false → env.user = none →
       env.loadGuildsImpl b.custom_guilds = Except.ok reg →
       (prepare_data env b).2.2 = none
       ∧ (prepare_data env b).2.1
           = [Event.log "Bot" "Waiting...", Event.waitUntilReady, Event.loadGuildsCall,
              Event.log "Bot" "Failed to get the user data",
              Event.changePresence (JVal.str "ERROR")])
  ∧ (∀ u, b.custom_ready = false → env.user = some u →
       env.loadGuildsImpl b.custom_guilds = Except.ok reg →
       (prepare_data env b).2.2 = none
       ∧ (prepare_data env b).2.1
           = [Event.log "Bot" "Waiting...", Event.waitUntilReady, Event.loadGuildsCall,
              Event.log "Bot" (b.name ++ " " ++ b.version ++ " ready to operate"),
              Event.log "Bot" ("Logged as " ++ u.1 ++ ", with the id: " ++ toString u.2),
              Event.changePresence b.activity_str]) := by
  refine ⟨by simp [set_activity], fun hs => by simp [set_activity, hs],
          fun h1 h2 h3 => ?_, fun u h1 h2 h3 => ?_⟩
  · simp [prepare_data, set_activity, h1, h2, h3]
  · simp [prepare_data, set_activity, h1, h2, h3]

/-- Claim C8, evaluated: with the self-user unavailable the presence becomes
ERROR and no exception propagates; with it available the presence is the
stored activity string. -/
theorem C8_error_presence_witness :
    ((prepare_data envOkNoUser bReg).2.2 = none
     ∧ (prepare_data envOkNoUser bReg).2.1
         = [Event.log "Bot" "Waiting...", Event.waitUntilReady, Event.loadGuildsCall,
            Event.log "Bot" "Failed to get the user data",
            Event.changePresence (JVal.str "ERROR")])
    ∧ ((prepare_data envOkUser bReg).2.2 = none
       ∧ (prepare_data envOkUser bReg).2.1
           = [Event.log "Bot" "Waiting...", Event.waitUntilReady, Event.loadGuildsCall,
              Event.log "Bot" (bReg.name ++ " " ++ bReg.version ++ " ready to operate"),
              Event.log "Bot" ("Logged as " ++ "me" ++ ", with the id: " ++ toString (42 : Int)),
              Event.changePresence bReg.activity_str]) :=
  ⟨(C8_error_presence envOkNoUser bReg sampleGuilds "x").2.2.1 rfl rfl rfl,
   (C8_error_presence envOkUser bReg sampleGuilds "x").2.2.2 ("me", 42) rfl rfl rfl⟩

/-- Claim C4: `save_guild` raises an uncaught `KeyError` and performs no
persistence call when the guild id is not registered; when it is registered,
it invokes that guild's `write_settings` exactly once and its `write_data`
exactly once. -/
theorem C4_save_guild (b : Bot) (gid : Int) :
    (b.custom_guilds.lookup (toString gid) = none →
       save_guild b gid = ([], some (PyError.keyError (toString gid))))
  ∧ (∀ g, b.custom_guilds.lookup (toString gid) = some g →
       save_guild b gid = ([Event.writeSettings g, Event.writeData g], none)
       ∧ countWS g (save_guild b gid).1 = 1
       ∧ countWD g (save_guild b gid).1 = 1) := by
  constructor
  · intro h
    simp [save_guild, h]
  · intro g h
    simp [save_guild, h, countWS, countWD]

/-- Claim C4, evaluated: on the two-entry registry, saving registered guild 5
writes object 7 once each way; saving unregistered guild 6 raises `KeyError`
with no persistence call. -/
theorem C4_save_guild_witness :
    (save_guild bReg 5 = ([Event.writeSettings 7, Event.writeData 7], none)
     ∧ countWS 7 (save_guild bReg 5).1 = 1
     ∧ countWD 7 (save_guild bReg 5).1 = 1)
    ∧ save_guild bReg 6 = ([], some (PyError.keyError "6")) :=
  ⟨(C4_save_guild bReg 5).2 7 (by decide), (C4_save_guild bReg 6).1 (by decide)⟩

/-- Claim C5: `save_all_guilds` invokes `write_settings` and `write_data`
exactly once per registered guild (the number of writes of a guild object
equals its number of registry entries), and does nothing on an empty
registry. -/
theorem C5_save_all_guilds (b : Bot) (g : Nat) :
    countWS g (save_all_guilds b) = (b.custom_guilds.map Prod.snd).count g
  ∧ countWD g (save_all_guilds b) = (b.custom_guilds.map Prod.snd).count g
  ∧ (b.custom_guilds = [] → save_all_guilds b = []) := by
  refine ⟨countWS_writeGuildEvents g _, countWD_writeGuildEvents g _, fun h => ?_⟩
  simp [save_all_guilds, h, writeGuildEvents]

/-- Claim C5, evaluated: on the two-entry registry each guild object is
written exactly once; on the empty registry nothing is invoked. -/
theorem C5_save_all_guilds_witness :
    countWS 7 (save_all_guilds bReg) = (bReg.custom_guilds.map Prod.snd).count 7
    ∧ countWD 9 (save_all_guilds bReg) = (bReg.custom_guilds.map Prod.snd).count 9
    ∧ save_all_guilds bEmpty = [] :=
  ⟨(C5_save_all_guilds bReg 7).1, (C5_save_all_guilds bReg 9).2.1,
   (C5_save_all_guilds bEmpty 0).2.2 (by decide)⟩

/-- Claim C6: `is_admin` returns true exactly when the author id is in the
loaded admin id list, and always false when that list is empty; it is a pure
function of the bot state. -/
theorem C6_is_admin (b : Bot) (author_id : Int) :
    (is_admin b author_id = true ↔ author_id ∈ b.admins_id)
  ∧ (b.admins_id = [] → is_admin b author_id = false) := by
  constructor
  · simp [is_admin]
  · intro h
    simp [is_admin, h]

/-- Claim C6, evaluated: on the empty admin list, `is_admin` is false. -/
theorem C6_is_admin_witness :
    (is_admin bEmpty 3 = true ↔ (3 : Int) ∈ bEmpty.admins_id)
    ∧ is_admin bEmpty 3 = false :=
  ⟨(C6_is_admin bEmpty 3).1, (C6_is_admin bEmpty 3).2 (by decide)⟩

/-- Claim C10: in `save_all_guilds` the trace is, guild by guild in registry
order, a `write_settings` call immediately followed by that same guild's
`write_data` call; and `save_guild` on a registered guild likewise emits
`write_settings` strictly before `write_data`. -/
theorem C10_write_order (b : Bot) (gid : Int) :
    save_all_guilds b
      = b.custom_guilds.flatMap (fun p => [Event.writeSettings p.2, Event.writeData p.2])
  ∧ (∀ g, b.custom_guilds.lookup (toString gid) = some g →
       (save_guild b gid).1 = [Event.writeSettings g, Event.writeData g]) := by
  constructor
  · exact writeGuildEvents_flatMap b.custom_guilds
  · intro g h
    simp [save_guild, h]

/-- Claim C2: loading a configuration that carries all three required keys
sets the admin id list to the integer conversions of the `ADM_ID` entries,
the token to the value of `TOKEN`, and the activity string to a member of
`Activities`, raising nothing. -/
theorem C2_set_internal_settings (fs : String → Option Config) (k : Nat) (path : String)
    (b : Bot) (cfg : Config) (admv tok : JVal) (ints : List Int) (acts : List JVal)
    (hpath : path ≠ "")
    (hfs : fs path = some cfg)
    (hadm : cfg.lookup "ADM_ID" = some admv)
    (hints : pyMapInt admv = Except.ok ints)
    (htok : cfg.lookup "TOKEN" = some tok)
    (hact : cfg.lookup "Activities" = some (JVal.arr acts))
    (hne : acts ≠ []) :
    (set_internal_settings fs k path b).1.admins_id = ints
  ∧ (set_internal_settings fs k path b).1.token = tok
  ∧ (set_internal_settings fs k path b).1.activity_str ∈ acts
  ∧ (set_internal_settings fs k path b).2.2 = none := by
  have hlen : 0 < acts.length := List.length_pos.mpr hne
  simp [set_internal_settings, load_internal_settings, hpath, hfs, dictGet,
        hadm, hints, htok, hact, choice, hlen]

/-- Claim C2, evaluated on a complete configuration file. -/
theorem C2_set_internal_settings_witness :
    (set_internal_settings (fsOf cfgFull) 0 "settings.json" bEmpty).1.admins_id = [10, 20]
    ∧ (set_internal_settings (fsOf cfgFull) 0 "settings.json" bEmpty).1.token = JVal.str "tok"
    ∧ (set_internal_settings (fsOf cfgFull) 0 "settings.json" bEmpty).1.activity_str
        ∈ [JVal.str "a", JVal.str "b"]
    ∧ (set_internal_settings (fsOf cfgFull) 0 "settings.json" bEmpty).2.2 = none :=
  C2_set_internal_settings (fsOf cfgFull) 0 "settings.json" bEmpty cfgFull
    (JVal.arr [JVal.str "10", JVal.num 20]) (JVal.str "tok") [10, 20]
    [JVal.str "a", JVal.str "b"]
    (by decide) rfl rfl rfl rfl rfl (List.cons_ne_nil _ _)

/-- Claim C3, counterexample: on the empty path, `load_internal_settings`
returns `none` but its event trace is empty — no failure message is logged,
contrary to the claim's "and logs a failure message". -/
theorem C3_empty_path_counterexample :
    (load_internal_settings (fsOf cfgFull) "").1 = none
    ∧ (load_internal_settings (fsOf cfgFull) "").2 = [] :=
  ⟨rfl, rfl⟩

/-- Claim C3, amended: on an empty path or a nonexistent file,
`load_internal_settings` returns `none` — logging a failure message in the
nonexistent-file case but logging nothing in the empty-path case — and
`set_internal_settings` on that result leaves the bot state (in particular
the admin id list, token, and activity string) unchanged, raising nothing. -/
theorem C3_load_absent (fs : String → Option Config) (k : Nat) (path : String) (b : Bot)
    (h : path = "" ∨ (path ≠ "" ∧ fs path = none)) :
    (load_internal_settings fs path).1 = none
  ∧ ((load_internal_settings fs path).2
       = if path = "" then [] else [Event.log "Bot" loadFailMsg])
  ∧ (set_internal_settings fs k path b).1 = b
  ∧ (set_internal_settings fs k path b).2.2 = none := by
  rcases h with h | ⟨h1, h2⟩
  · subst h
    refine ⟨rfl, by simp [load_internal_settings], ?_, ?_⟩ <;>
      simp [set_internal_settings, load_internal_settings]
  · refine ⟨?_, ?_, ?_, ?_⟩ <;>
      simp [set_internal_settings, load_internal_settings, h1, h2]

/-- Claim C3 (amended), evaluated on a nonexistent path. -/
theorem C3_load_absent_witness :
    (load_internal_settings (fsOf cfgFull) "missing.json").1 = none
    ∧ ((load_internal_settings (fsOf cfgFull) "missing.json").2
         = if ("missing.json" : String) = "" then [] else [Event.log "Bot" loadFailMsg])
    ∧ (set_internal_settings (fsOf cfgFull) 0 "missing.json" bEmpty).1 = bEmpty
    ∧ (set_internal_settings (fsOf cfgFull) 0 "missing.json" bEmpty).2.2 = none :=
  C3_load_absent (fsOf cfgFull) 0 "missing.json" bEmpty (Or.inr ⟨by decide, rfl⟩)

/-- Claim C7: a successfully loaded configuration that is missing one of the
keys `ADM_ID`, `TOKEN` or `Activities` makes `set_internal_settings` raise an
uncaught `KeyError` naming that key — no recovery and no fallback to
defaults. -/
theorem C7_missing_key (fs : String → Option Config) (k : Nat) (path : String)
    (b : Bot) (cfg : Config)
    (hpath : path ≠ "") (hfs : fs path = some cfg) :
    (cfg.lookup "ADM_ID" = none →
       (set_internal_settings fs k path b).2.2 = some (PyError.keyError "ADM_ID"))
  ∧ (∀ v ints, cfg.lookup "ADM_ID" = some v → pyMapInt v = Except.ok ints →
       cfg.lookup "TOKEN" = none →
       (set_internal_settings fs k path b).2.2 = some (PyError.keyError "TOKEN"))
  ∧ (∀ v ints t, cfg.lookup "ADM_ID" = some v → pyMapInt v = Except.ok ints →
       cfg.lookup "TOKEN" = some t → cfg.lookup "Activities" = none →
       (set_internal_settings fs k path b).2.2 = some (PyError.keyError "Activities")) := by
  refine ⟨fun h => ?_, fun v ints h1 h2 h3 => ?_, fun v ints t h1 h2 h3 h4 => ?_⟩ <;>
    simp [set_internal_settings, load_internal_settings, hpath, hfs, dictGet, *]

/-- Claim C7, evaluated on three configurations, each missing one key. -/
theorem C7_missing_key_witness :
    (set_internal_settings (fsOf cfgNoAdm) 0 "settings.json" bEmpty).2.2
        = some (PyError.keyError "ADM_ID")
    ∧ (set_internal_settings (fsOf cfgNoTok) 0 "settings.json" bEmpty).2.2
        = some (PyError.keyError "TOKEN")
    ∧ (set_internal_settings (fsOf cfgNoAct) 0 "settings.json" bEmpty).2.2
        = some (PyError.keyError "Activities") :=
  ⟨(C7_missing_key (fsOf cfgNoAdm) 0 "settings.json" bEmpty cfgNoAdm
      (by decide) rfl).1 rfl,
   (C7_missing_key (fsOf cfgNoTok) 0 "settings.json" bEmpty cfgNoTok
      (by decide) rfl).2.1 (JVal.arr [JVal.num 1]) [1] rfl rfl rfl,
   (C7_missing_key (fsOf cfgNoAct) 0 "settings.json" bEmpty cfgNoAct
      (by decide) rfl).2.2 (JVal.arr [JVal.num 1]) [1] (JVal.str "tok")
      rfl rfl rfl rfl⟩

/-- Claim C10, evaluated on the two-entry registry. -/
theorem C10_write_order_witness :
    save_all_guilds bReg
      = bReg.custom_guilds.flatMap (fun p => [Event.writeSettings p.2, Event.writeData p.2])
    ∧ (save_guild bReg 5).1 = [Event.writeSettings 7, Event.writeData 7] :=
  ⟨(C10_write_order bReg 5).1, (C10_write_order bReg 5).2 7 (by decide)⟩

end BotSystem
